import Mathlib

/-
  Verification development for the evaluator core of MonkeyPython
  (src/pmonkey/evaluator.py), a tree-walking interpreter.

  The evaluator source is embedded shallowly below.  The repository's
  `ast.py`, `objects.py` and `environment.py` are not part of the sources
  provided; the AST node shapes, the runtime value model and the
  environment are modelled from the specification (sections 3, 4.1, 4.2)
  and from the observable strings in the evaluator and its tests.

  Python-level behaviour that the evaluator relies on is made explicit:
  - a Python function that falls off the end (the `LetStatement` branch)
    returns `None`; results of `eval` are therefore a sum of a runtime
    value, Python `None`, and a Python list (the `CallExpression` branch
    can return the argument list itself);
  - attribute/index errors and `ZeroDivisionError` are host-level
    exceptions, modelled as a `crash` outcome distinct from any value;
  - Python numbers (`int`, and the `float` produced by true division `/`)
    are modelled as exact unnormalised fractions `PyNum`; arithmetic and
    comparisons are by cross-multiplication, so `2.0 == 2` holds just as
    in Python.  Integer arithmetic (`+ - *`, comparisons) is exact in
    Python and in this model alike; float division's rounding and
    overflow are abstracted away, so no theorem asserts the result of
    `/` beyond concrete inputs whose float quotient is exact.
  - recursion is bounded by explicit fuel; exhausting fuel is a `timeout`
    outcome, a modelling artifact distinct from both values and crashes.
-/

/-- Exact model of the Python numbers held by `Integer` objects: an
unnormalised fraction.  Integer literals have denominator 1; true
division `/` produces a possibly non-integral fraction, as Python's `/`
produces a float. -/
structure PyNum where
  num : Int
  den : Int
  deriving DecidableEq, Repr

/-- A Python `int` as a `PyNum`. -/
def pyInt (n : Int) : PyNum := ⟨n, 1⟩

/-- Python numeric addition. -/
def PyNum.add (a b : PyNum) : PyNum := ⟨a.num * b.den + b.num * a.den, a.den * b.den⟩

/-- Python numeric subtraction. -/
def PyNum.sub (a b : PyNum) : PyNum := ⟨a.num * b.den - b.num * a.den, a.den * b.den⟩

/-- Python numeric multiplication. -/
def PyNum.mul (a b : PyNum) : PyNum := ⟨a.num * b.num, a.den * b.den⟩

/-- Python true division `/` (the divisor is checked to be non-zero at
the call site; Python raises `ZeroDivisionError` otherwise), as the
exact quotient.  Real Python returns a 53-bit binary float here, which
rounds quotients that are not exactly representable and raises
`OverflowError` on operands beyond float range; this exact-fraction
abstraction therefore coincides with the program only at inputs whose
float quotient is exact, and the theorems below assert the result of `/`
only at such inputs (5/2 = 2.5 exactly). -/
def PyNum.div (a b : PyNum) : PyNum := ⟨a.num * b.den, a.den * b.num⟩

/-- Python numeric negation. -/
def PyNum.neg (a : PyNum) : PyNum := ⟨-a.num, a.den⟩

/-- Python numeric equality `==` (value equality: `2.0 == 2`). -/
def PyNum.numEq (a b : PyNum) : Bool := a.num * b.den == b.num * a.den

/-- Python numeric `<`, correct for either sign of the denominators. -/
def PyNum.numLt (a b : PyNum) : Bool :=
  decide (a.num * b.den * (a.den * b.den).sign < b.num * a.den * (a.den * b.den).sign)

/-- Whether a `PyNum` is numerically zero (`ZeroDivisionError` test). -/
def PyNum.isZero (a : PyNum) : Bool := a.num == 0

/-- AST nodes consumed by the evaluator.  `ast.py` is not among the
provided sources; the node kinds and their fields are modelled from the
specification, section 3.  Parameter lists of function literals are
`Identifier` nodes in the source; only their `.value` string is ever
read, so they are modelled as strings. -/
inductive Node where
  | program : List Node → Node
  | expressionStatement : Node → Node
  | blockStatement : List Node → Node
  | integerLiteral : Int → Node
  | booleanLiteral : Bool → Node
  | prefixExpression : String → Node → Node
  | infixExpression : String → Node → Node → Node
  | ifExpression : Node → Node → Option Node → Node
  | returnStatement : Node → Node
  | letStatement : String → Node → Node
  | identifier : String → Node
  | functionLiteral : List String → Node → Node
  | callExpression : Node → List Node → Node

/-- Runtime values.  `objects.py` is not among the provided sources; the
variants are modelled from the specification, section 3.  A `function`
value records the allocation identity of the Python object (fresh per
`FunctionLiteral` evaluation) so that Python's identity-based `==` is
representable, then the parameter names, the body node, and the captured
environment by reference (an index into the store). -/
inductive Value where
  | integer : PyNum → Value
  | boolean : Bool → Value
  | null : Value
  | returnValue : Value → Value
  | error : String → Value
  | function : Nat → List String → Node → Nat → Value

/-- The `TRUE` singleton of evaluator.py.  The spec's singleton invariant
means identity comparison against the singletons coincides with
comparing the wrapped boolean flag. -/
def TRUE : Value := Value.boolean true

/-- The `FALSE` singleton of evaluator.py. -/
def FALSE : Value := Value.boolean false

/-- The `NULL` singleton of evaluator.py. -/
def NULL : Value := Value.null

/-- The type tag of a value (`objects.py` constants `INTEGER_OBJ`, ...).
The exact strings for `INTEGER`, `BOOLEAN`, `NULL` appear in the error
messages checked by the repository's tests; the remaining tags are
modelled from the spec (they are only ever compared for (in)equality
with each other). -/
def Value.type : Value → String
  | .integer _ => "INTEGER"
  | .boolean _ => "BOOLEAN"
  | .null => "NULL"
  | .returnValue _ => "RETURN_VALUE"
  | .error _ => "ERROR"
  | .function _ _ _ _ => "FUNCTION"

/-- `is_error` of evaluator.py: `node.type() == obj.ERROR_OBJ`. -/
def is_error (v : Value) : Bool := v.type == "ERROR"

/-- `native_boolean_to_boolean_object` of evaluator.py: `TRUE if
boolean_value else FALSE`. -/
def native_boolean_to_boolean_object (b : Bool) : Value :=
  if b then TRUE else FALSE

/-- Python's `==` between two runtime objects.  `objects.py` defines no
structural equality (modelled from the spec's singleton-identity
invariant), so `==` is object identity: the `Boolean` and `Null`
singletons are identical exactly when they are the same singleton, two
`function` objects are identical exactly when they have the same
allocation id, and two distinct allocations of any other variant are
never identical.  (The evaluator never reaches this comparison with the
same `Integer`/`Error`/`ReturnValue` object on both sides: integers are
dispatched to the numeric path first, and errors/return values are
intercepted before operators apply.) -/
def pyIs : Value → Value → Bool
  | .boolean a, .boolean b => a == b
  | .null, .null => true
  | .function i _ _ _, .function j _ _ _ => i == j
  | _, _ => false

/-- `is_truthy` of evaluator.py: identity comparisons against `NULL`,
`TRUE`, `FALSE`, with everything else truthy. -/
def is_truthy : Value → Bool
  | .null => false
  | .boolean b => b
  | _ => true

/-- `eval_bang_operator_expression` of evaluator.py. -/
def eval_bang_operator_expression : Value → Value
  | .boolean true => FALSE
  | .boolean false => TRUE
  | .null => TRUE
  | _ => FALSE

/-- `eval_minus_prefix_operator_expression` of evaluator.py. -/
def eval_minus_prefix_operator_expression (right : Value) : Value :=
  match right with
  | .integer v => .integer v.neg
  | _ => .error ("unknown operator: -" ++ right.type)

/-- `eval_prefix_expression` of evaluator.py. -/
def eval_prefix_expression (op : String) (right : Value) : Value :=
  if op = "!" then eval_bang_operator_expression right
  else if op = "-" then eval_minus_prefix_operator_expression right
  else .error ("unknown operator: " ++ op ++ right.type)

/-- `eval_integer_infix_expression` of evaluator.py, on the wrapped
numbers of the two `Integer` operands.  `none` models the host
`ZeroDivisionError` raised by Python's `/` on a zero divisor. -/
def eval_integer_infix_expression (op : String) (lv rv : PyNum) : Option Value :=
  if op = "+" then some (.integer (lv.add rv))
  else if op = "-" then some (.integer (lv.sub rv))
  else if op = "*" then some (.integer (lv.mul rv))
  else if op = "/" then
    if rv.isZero then none else some (.integer (lv.div rv))
  else if op = "<" then some (native_boolean_to_boolean_object (lv.numLt rv))
  else if op = ">" then some (native_boolean_to_boolean_object (rv.numLt lv))
  else if op = "==" then some (native_boolean_to_boolean_object (lv.numEq rv))
  else if op = "!=" then some (native_boolean_to_boolean_object (!(lv.numEq rv)))
  else some (.error ("unknown operator: INTEGER " ++ op ++ " INTEGER"))

/-- `eval_infix_expression` of evaluator.py: the both-`Integer` branch
first, then `==`/`!=` by object identity, then the type-mismatch and
unknown-operator errors.  `none` models a host exception escaping from
the integer branch. -/
def eval_infix_expression (op : String) (left right : Value) : Option Value :=
  match left, right with
  | .integer lv, .integer rv => eval_integer_infix_expression op lv rv
  | _, _ =>
    if op = "==" then some (native_boolean_to_boolean_object (pyIs left right))
    else if op = "!=" then some (native_boolean_to_boolean_object (!(pyIs left right)))
    else if left.type ≠ right.type then
      some (.error ("type mismatch: " ++ left.type ++ " " ++ op ++ " " ++ right.type))
    else
      some (.error ("unknown operator: " ++ left.type ++ " " ++ op ++ " " ++ right.type))

/-- An environment: `environment.py` is not among the provided sources;
modelled from the specification, section 4.2: a mapping from names to
values plus an optional parent.  Environments are mutable and shared, so
they live in a store and are referenced by index; `parent` is such an
index. -/
structure Env where
  bindings : List (String × Value)
  parent : Option Nat

/-- The mutable heap of environments, plus the allocation counter that
gives each `function` object its Python identity. -/
structure Store where
  envs : List Env
  nextId : Nat

/-- The store holding just the fresh top-level environment
(`Environment()`), at index 0 — the state in which the test harness
invokes the evaluator. -/
def initStore : Store := ⟨[⟨[], none⟩], 0⟩

/-- Insert-or-overwrite in one environment's binding list (Python dict
assignment). -/
def setBinding (bs : List (String × Value)) (name : String) (v : Value) :
    List (String × Value) :=
  match bs with
  | [] => [(name, v)]
  | (m, w) :: rest => if m = name then (name, v) :: rest else (m, w) :: setBinding rest name v

/-- Lookup in one environment's own binding list (Python dict lookup). -/
def getBinding (bs : List (String × Value)) (name : String) : Option Value :=
  match bs with
  | [] => none
  | (m, w) :: rest => if m = name then some w else getBinding rest name

/-- `Environment.set` of environment.py, acting on the store: binds in
the designated environment only, never in an ancestor. -/
def envSet (st : Store) (ref : Nat) (name : String) (v : Value) : Store :=
  match st.envs.get? ref with
  | some e => ⟨st.envs.set ref ⟨setBinding e.bindings name v, e.parent⟩, st.nextId⟩
  | none => st

/-- Allocate `Environment(parent)`: a fresh environment with no bindings,
appended to the store; its index is the store's previous length. -/
def allocEnv (st : Store) (parent : Option Nat) : Store :=
  ⟨st.envs ++ [⟨[], parent⟩], st.nextId⟩

/-- `Environment.get` of environment.py: walk from the environment out
through the parent links until the name is found or the chain is
exhausted.  Every parent reference the evaluator creates points to an
earlier allocation, so a chain visits each store slot at most once; the
walk is bounded by the store size, which is exact on every reachable
store. -/
def envGetAux : Nat → Store → Nat → String → Option Value
  | 0, _, _, _ => none
  | fuel + 1, st, ref, name =>
    match st.envs.get? ref with
    | none => none
    | some e =>
      match getBinding e.bindings name with
      | some v => some v
      | none =>
        match e.parent with
        | some p => envGetAux fuel st p name
        | none => none

/-- `Environment.get`, entered with the full store size as the chain
bound. -/
def envGet (st : Store) (ref : Nat) (name : String) : Option Value :=
  envGetAux st.envs.length st ref name

/-- What a call to Python `eval` can return: a runtime value, Python
`None` (the fall-off-the-end result of the `LetStatement` branch), or a
Python list of values (the `CallExpression` branch's `return args`). -/
inductive PyObject where
  | val : Value → PyObject
  | pyNone : PyObject
  | pyList : List Value → PyObject

/-- The outcome of running evaluator code: a normal return, a host-level
exception (`AttributeError`, `IndexError`, `ZeroDivisionError`,
`UnboundLocalError`), or fuel exhaustion (a modelling artifact). -/
inductive Outcome (α : Type) where
  | ok : α → Outcome α
  | crash : Outcome α
  | timeout : Outcome α

/-- Sequencing of outcomes: exceptions and fuel exhaustion propagate. -/
def Outcome.bind {α β : Type} : Outcome α → (α → Outcome β) → Outcome β
  | .ok a, f => f a
  | .crash, _ => .crash
  | .timeout, _ => .timeout

/-- The work items of the evaluator's mutually recursive functions:
`eval` on one node, the statement loops of `eval_program` and
`eval_block_statement` (carrying the loop's `result` variable, unbound
before the first iteration), the argument loop of `eval_expressions`
(carrying the accumulated `values`), and `apply_function`. -/
inductive Job where
  | one : Node → Job
  | progSeq : List Node → Option PyObject → Job
  | blockSeq : List Node → Option PyObject → Job
  | exprSeq : List Node → List Value → Job
  | applyFn : Value → List Value → Job

/-- `extend_function_environment`'s parameter loop:
`internal_env.set(param.value, args[i])` for each parameter in order;
a missing `args[i]` is a host `IndexError` (arity-short call). -/
def bindParams (ref : Nat) : List String → List Value → Nat → Store → Outcome Store
  | [], _, _, st => .ok st
  | p :: ps, args, i, st =>
    match args.get? i with
    | some a => bindParams ref ps args (i + 1) (envSet st ref p a)
    | none => .crash

/-- The evaluator: `eval` of evaluator.py together with its mutually
recursive helpers, driven by explicit fuel (each recursive call consumes
one unit; `timeout` appears only when the fuel runs out and is never an
outcome of the Python code itself).  Each branch mirrors the
corresponding lines of evaluator.py, including its unguarded spots:
`eval_block_statement` calls `.type()` on whatever a statement returned
(crashing on Python `None` from a `let` and on a list), `eval_program`
skips only `None`, the `CallExpression` branch returns the argument
*list* when the sole evaluated argument is an error, and
`apply_function` reads `.env`, `.parameters` and `.body` without
checking that the callee is a `Function`. -/
def run : Nat → Job → Nat → Store → Outcome (PyObject × Store)
  | 0, _, _, _ => .timeout
  | fuel + 1, .one node, envRef, st =>
    match node with
    | .program stmts => run fuel (.progSeq stmts none) envRef st
    | .expressionStatement e => run fuel (.one e) envRef st
    | .integerLiteral n => .ok (.val (.integer (pyInt n)), st)
    | .booleanLiteral b => .ok (.val (native_boolean_to_boolean_object b), st)
    | .prefixExpression op rightNode =>
      (run fuel (.one rightNode) envRef st).bind fun (r, st1) =>
        match r with
        | .val right =>
          if is_error right then .ok (.val right, st1)
          else .ok (.val (eval_prefix_expression op right), st1)
        | _ => .crash
    | .infixExpression op leftNode rightNode =>
      (run fuel (.one leftNode) envRef st).bind fun (l, st1) =>
        match l with
        | .val left =>
          if is_error left then .ok (.val left, st1)
          else
            (run fuel (.one rightNode) envRef st1).bind fun (r, st2) =>
              match r with
              | .val right =>
                if is_error right then .ok (.val right, st2)
                else
                  match eval_infix_expression op left right with
                  | some v => .ok (.val v, st2)
                  | none => .crash
              | _ => .crash
        | _ => .crash
    | .blockStatement stmts => run fuel (.blockSeq stmts none) envRef st
    | .ifExpression condNode cons alt =>
      (run fuel (.one condNode) envRef st).bind fun (c, st1) =>
        match c with
        | .val cond =>
          if is_error cond then .ok (.val cond, st1)
          else if is_truthy cond then run fuel (.one cons) envRef st1
          else
            match alt with
            | some a => run fuel (.one a) envRef st1
            | none => .ok (.val NULL, st1)
        | _ => .crash
    | .returnStatement e =>
      (run fuel (.one e) envRef st).bind fun (v, st1) =>
        match v with
        | .val w =>
          if is_error w then .ok (.val w, st1)
          else .ok (.val (.returnValue w), st1)
        | _ => .crash
    | .letStatement name e =>
      (run fuel (.one e) envRef st).bind fun (v, st1) =>
        match v with
        | .val w =>
          if is_error w then .ok (.val w, st1)
          else .ok (.pyNone, envSet st1 envRef name w)
        | _ => .crash
    | .identifier name =>
      match envGet st envRef name with
      | some v => .ok (.val v, st)
      | none => .ok (.val (.error ("identifier not found: " ++ name)), st)
    | .functionLiteral params body =>
      .ok (.val (.function st.nextId params body envRef), ⟨st.envs, st.nextId + 1⟩)
    | .callExpression fnNode argNodes =>
      (run fuel (.one fnNode) envRef st).bind fun (f, st1) =>
        match f with
        | .val fv =>
          if is_error fv then .ok (.val fv, st1)
          else
            (run fuel (.exprSeq argNodes []) envRef st1).bind fun (a, st2) =>
              match a with
              | .pyList args =>
                match args with
                | [arg] =>
                  if is_error arg then .ok (.pyList [arg], st2)
                  else run fuel (.applyFn fv [arg]) envRef st2
                | _ => run fuel (.applyFn fv args) envRef st2
              | _ => .crash
        | _ => .crash
  | fuel + 1, .progSeq stmts prev, envRef, st =>
    match stmts with
    | [] =>
      match prev with
      | some r => .ok (r, st)
      | none => .crash
    | s :: rest =>
      (run fuel (.one s) envRef st).bind fun (r, st1) =>
        match r with
        | .pyNone => run fuel (.progSeq rest (some .pyNone)) envRef st1
        | .val (.returnValue w) => .ok (.val w, st1)
        | .val (.error m) => .ok (.val (.error m), st1)
        | .val v => run fuel (.progSeq rest (some (.val v))) envRef st1
        | .pyList _ => .crash
  | fuel + 1, .blockSeq stmts prev, envRef, st =>
    match stmts with
    | [] =>
      match prev with
      | some r => .ok (r, st)
      | none => .crash
    | s :: rest =>
      (run fuel (.one s) envRef st).bind fun (r, st1) =>
        match r with
        | .val (.returnValue w) => .ok (.val (.returnValue w), st1)
        | .val (.error m) => .ok (.val (.error m), st1)
        | .val v => run fuel (.blockSeq rest (some (.val v))) envRef st1
        | _ => .crash
  | fuel + 1, .exprSeq exps acc, envRef, st =>
    match exps with
    | [] => .ok (.pyList acc, st)
    | e :: rest =>
      (run fuel (.one e) envRef st).bind fun (r, st1) =>
        match r with
        | .val v =>
          if is_error v then .ok (.pyList [v], st1)
          else run fuel (.exprSeq rest (acc ++ [v])) envRef st1
        | _ => .crash
  | fuel + 1, .applyFn fv args, _, st =>
    match fv with
    | .function _ params body envC =>
      let newRef := st.envs.length
      match bindParams newRef params args 0 (allocEnv st (some envC)) with
      | .ok st1 =>
        (run fuel (.one body) newRef st1).bind fun (r, st2) =>
          match r with
          | .val v =>
            if is_error v then .ok (.val v, st2)
            else
              match v with
              | .returnValue w => .ok (.val w, st2)
              | _ => .ok (.val v, st2)
          | _ => .crash
      | .crash => .crash
      | .timeout => .timeout
    | _ => .crash

/-- `eval(program, Environment())` followed by discarding the final
store: the way the test harness invokes the evaluator on a program. -/
def runProgram (fuel : Nat) (p : Node) : Outcome PyObject :=
  match run fuel (.one p) 0 initStore with
  | .ok (r, _) => .ok r
  | .crash => .crash
  | .timeout => .timeout

/-- `eval(node, Environment())` on a single node, discarding the final
store. -/
def runNode (fuel : Nat) (n : Node) : Outcome PyObject :=
  match run fuel (.one n) 0 initStore with
  | .ok (r, _) => .ok r
  | .crash => .crash
  | .timeout => .timeout


/- ================= concrete programs used by the theorems ================= -/

/-- `fn(x, y) { x; }(1)` — a call with fewer arguments than parameters. -/
def arityMismatchProgram : Node :=
  .program
    [.expressionStatement
      (.callExpression
        (.functionLiteral ["x", "y"] (.blockStatement [.expressionStatement (.identifier "x")]))
        [.integerLiteral 1])]

/-- `if (true) { let a = 5; }` — a block whose statement list contains a
let statement. -/
def letInBlockProgram : Node :=
  .program
    [.expressionStatement
      (.ifExpression (.booleanLiteral true)
        (.blockStatement [.letStatement "a" (.integerLiteral 5)]) none)]

/-- `fn(x) { x; }(nope)` — a call whose single argument is an unbound
identifier, so evaluating the argument yields an `Error`. -/
def errorArgCall : Node :=
  .callExpression
    (.functionLiteral ["x"] (.blockStatement [.expressionStatement (.identifier "x")]))
    [.identifier "nope"]

/-- `let a = 5;` — a program whose final (only) statement is a let. -/
def letOnlyProgram : Node := .program [.letStatement "a" (.integerLiteral 5)]

/-- The block `{ if (10 > 1) { return 10; } return 1; }`. -/
def nestedReturnBlock : Node :=
  .blockStatement
    [.expressionStatement
      (.ifExpression (.infixExpression ">" (.integerLiteral 10) (.integerLiteral 1))
        (.blockStatement [.returnStatement (.integerLiteral 10)]) none),
     .returnStatement (.integerLiteral 1)]

/-- `if (10 > 1) { if (10 > 1) { return 10; } return 1; }` as a program. -/
def nestedReturnProgram : Node :=
  .program
    [.expressionStatement
      (.ifExpression (.infixExpression ">" (.integerLiteral 10) (.integerLiteral 1))
        nestedReturnBlock none)]

/-- The program `5 + true; 5`. -/
def errorShortCircuitProgram : Node :=
  .program
    [.expressionStatement (.infixExpression "+" (.integerLiteral 5) (.booleanLiteral true)),
     .expressionStatement (.integerLiteral 5)]

/-- The expression `1 / 0`, whose evaluation raises `ZeroDivisionError`. -/
def divByZeroNode : Node := .infixExpression "/" (.integerLiteral 1) (.integerLiteral 0)

/-- `let newAdder = fn(x){ fn(y){ x + y; } }; let addTwo = newAdder(2); addTwo(2);` -/
def newAdderProgram : Node :=
  .program
    [.letStatement "newAdder"
      (.functionLiteral ["x"]
        (.blockStatement
          [.expressionStatement
            (.functionLiteral ["y"]
              (.blockStatement
                [.expressionStatement
                  (.infixExpression "+" (.identifier "x") (.identifier "y"))]))])),
     .letStatement "addTwo"
      (.callExpression (.identifier "newAdder") [.integerLiteral 2]),
     .expressionStatement
      (.callExpression (.identifier "addTwo") [.integerLiteral 2])]

/-- The guard of `eval_infix_expression`'s first branch: `type(left) ==
Integer and type(right) == Integer`. -/
def bothIntegers : Value → Value → Bool
  | .integer _, .integer _ => true
  | _, _ => false

/-- Whether a `PyNum` denotes a mathematical integer (its denominator
divides its numerator). -/
def PyNum.isIntegral (a : PyNum) : Prop := a.den ∣ a.num

/- ============================== theorems ============================== -/

/-- C1: the claim says `evaluate` never aborts via a host-level exception,
even on arity-mismatched calls and on blocks whose statements include let
statements.  The code crashes on both: `extend_function_environment`
indexes `args[i]` past the end of an arity-short argument list
(`IndexError`), and `eval_block_statement` calls `.type()` on the Python
`None` that the `LetStatement` branch returns (`AttributeError`). -/
theorem c1_evaluate_crashes_on_arity_mismatch_and_let_in_block :
    runProgram 16 arityMismatchProgram = .crash
    ∧ runProgram 16 letInBlockProgram = .crash := ⟨rfl, rfl⟩

/-- C2: arguments are evaluated left to right and evaluation stops at the
first `Error`, but the `CallExpression` branch then executes
`return args` — the whole one-element Python *list*, not the `Error`
value it just inspected — so the call's result is the list, and the
program-level sequencing crashes calling `.type()` on it. -/
theorem c2_call_with_error_argument_returns_list :
    runNode 16 errorArgCall = .ok (.pyList [.error "identifier not found: nope"])
    ∧ runProgram 16 (.program [.expressionStatement errorArgCall]) = .crash := ⟨rfl, rfl⟩

/-- C3 counterexample: `/` on the Integers 5 and 2 yields an
`Integer`-tagged value wrapping 5/2, which is not a mathematical integer
— so the result is not "computed by integer arithmetic on the two
wrapped integers". -/
theorem c3_division_not_integer_counterexample :
    eval_integer_infix_expression "/" (pyInt 5) (pyInt 2) = some (.integer ⟨5, 2⟩)
    ∧ ¬ (⟨5, 2⟩ : PyNum).isIntegral := by
  refine ⟨rfl, ?_⟩
  intro h
  rcases h with ⟨k, hk⟩
  simp only [PyNum.isIntegral] at hk
  omega

/-- C3 amended: for every pair of Integer operands, `+ - *` yield an
Integer computed by integer arithmetic on the two wrapped integers, and
`< > == !=` yield a Boolean singleton; but `/` is Python float true
division, not integer division — its result wraps the (possibly
non-integral) quotient: on the Integers 5 and 2 it yields an
`Integer`-tagged value wrapping exactly 5/2 = 2.5.  (Float rounding and
overflow on operands whose quotient is not float-representable lie
outside this exact-fraction embedding, so `/` is asserted only at 5 and
2, where Python's float result is exact.) -/
theorem c3_integer_infix_amended (a b : Int) :
    eval_integer_infix_expression "+" (pyInt a) (pyInt b) = some (.integer (pyInt (a + b)))
    ∧ eval_integer_infix_expression "-" (pyInt a) (pyInt b) = some (.integer (pyInt (a - b)))
    ∧ eval_integer_infix_expression "*" (pyInt a) (pyInt b) = some (.integer (pyInt (a * b)))
    ∧ eval_integer_infix_expression "<" (pyInt a) (pyInt b)
        = some (native_boolean_to_boolean_object (decide (a < b)))
    ∧ eval_integer_infix_expression ">" (pyInt a) (pyInt b)
        = some (native_boolean_to_boolean_object (decide (b < a)))
    ∧ eval_integer_infix_expression "==" (pyInt a) (pyInt b)
        = some (native_boolean_to_boolean_object (a == b))
    ∧ eval_integer_infix_expression "!=" (pyInt a) (pyInt b)
        = some (native_boolean_to_boolean_object (!(a == b)))
    ∧ eval_integer_infix_expression "/" (pyInt 5) (pyInt 2) = some (.integer ⟨5, 2⟩) := by
  refine ⟨?_, ?_, ?_, ?_, ?_, ?_, ?_, rfl⟩ <;>
    simp [eval_integer_infix_expression, pyInt, PyNum.add, PyNum.sub, PyNum.mul,
      PyNum.numLt, PyNum.numEq]

/-- C4 counterexample: the program `let a = 5;` evaluates to Python
`None` (`eval_program`'s `result != None` guard skips it and the final
`return result` hands it back), not to any runtime `Value`. -/
theorem c4_let_final_program_counterexample :
    runProgram 16 letOnlyProgram = .ok .pyNone
    ∧ ¬ ∃ v : Value, runProgram 16 letOnlyProgram = .ok (.val v) := by
  refine ⟨rfl, ?_⟩
  rintro ⟨v, h⟩
  rw [show runProgram 16 letOnlyProgram = .ok .pyNone from rfl] at h
  exact PyObject.noConfusion (Outcome.ok.inj h)

/-- C4 amended: within program sequencing a let statement's result (the
host `None`) is not special-cased and sequencing continues past it, so a
later statement's value becomes the program result; but a program whose
*final* statement is a let yields `None` itself, not a runtime value. -/
theorem c4_program_sequencing_amended (nm : String) (n : Int) :
    runProgram 16 (.program [.letStatement nm (.integerLiteral n)]) = .ok .pyNone
    ∧ runProgram 16 (.program [.letStatement nm (.integerLiteral n),
        .expressionStatement (.identifier nm)]) = .ok (.val (.integer (pyInt n))) := by
  constructor <;>
    simp [runProgram, run, Outcome.bind, is_error, Value.type, envSet, initStore,
      envGet, envGetAux, getBinding, setBinding]

/-- C5: block evaluation returns a `ReturnValue` still wrapped, and the
program boundary unwraps it: the block
`{ if (10 > 1) { return 10; } return 1; }` evaluates to
`ReturnValue(Integer(10))`, while the enclosing program
`if (10 > 1) { if (10 > 1) { return 10; } return 1; }` evaluates to
`Integer(10)`. -/
theorem c5_return_wrapped_in_block_unwrapped_at_program :
    runNode 32 nestedReturnBlock = .ok (.val (.returnValue (.integer (pyInt 10))))
    ∧ runProgram 32 nestedReturnProgram = .ok (.val (.integer (pyInt 10))) := ⟨rfl, rfl⟩

/-- C6: an `Error` short-circuits its siblings.  `5 + true; 5` yields
`Error("type mismatch: INTEGER + BOOLEAN")`; replacing the trailing `5`
by `1/0` (which would raise `ZeroDivisionError` if evaluated, last
conjunct) yields the same error, so the trailing statement is never
evaluated; and an infix expression whose left operand is an error never
evaluates its right operand, again demonstrated with a crashing right
operand. -/
theorem c6_error_short_circuits_siblings :
    runProgram 32 errorShortCircuitProgram
      = .ok (.val (.error "type mismatch: INTEGER + BOOLEAN"))
    ∧ runProgram 32 (.program
        [.expressionStatement (.infixExpression "+" (.integerLiteral 5) (.booleanLiteral true)),
         .expressionStatement divByZeroNode])
      = .ok (.val (.error "type mismatch: INTEGER + BOOLEAN"))
    ∧ runNode 32 (.infixExpression "+" (.identifier "foo") divByZeroNode)
      = .ok (.val (.error "identifier not found: foo"))
    ∧ runNode 32 divByZeroNode = .crash := ⟨rfl, rfl, rfl, rfl⟩

/-- C7: a function literal captures the current environment by reference
(the `function` value stores the current environment's index unchanged,
and no bindings are copied — the store's environments are untouched);
application allocates a fresh empty child environment whose parent is
precisely the captured reference; and the closure example
`let newAdder = fn(x){ fn(y){ x + y; } }; let addTwo = newAdder(2);
addTwo(2);` evaluates to `Integer(4)`. -/
theorem c7_closure_capture_by_reference :
    runProgram 64 newAdderProgram = .ok (.val (.integer (pyInt 4)))
    ∧ (∀ (fuel : Nat) (params : List String) (body : Node) (envRef : Nat) (st : Store),
        run (fuel + 1) (.one (.functionLiteral params body)) envRef st
          = .ok (.val (.function st.nextId params body envRef), ⟨st.envs, st.nextId + 1⟩))
    ∧ (∀ (st : Store) (envC : Nat),
        (allocEnv st (some envC)).envs = st.envs ++ [⟨[], some envC⟩]) :=
  ⟨rfl, fun _ _ _ _ _ => rfl, fun _ _ => rfl⟩

/-- C8: when the two operands are not both Integers, `==` and `!=` are
identity comparisons (which, by the singleton invariant, decide equality
for the `Boolean` and `Null` singletons), this branch being tried before
the type-mismatch error: `true == true` is the `TRUE` singleton,
`true == false` is `FALSE`, and `5 == true` yields `FALSE` rather than a
type-mismatch error. -/
theorem c8_nonint_equality_is_identity (l r : Value) (h : bothIntegers l r = false) :
    eval_infix_expression "==" l r = some (native_boolean_to_boolean_object (pyIs l r))
    ∧ eval_infix_expression "!=" l r = some (native_boolean_to_boolean_object (!(pyIs l r)))
    ∧ eval_infix_expression "==" TRUE TRUE = some TRUE
    ∧ eval_infix_expression "==" TRUE FALSE = some FALSE
    ∧ eval_infix_expression "==" (.integer (pyInt 5)) TRUE = some FALSE := by
  refine ⟨?_, ?_, rfl, rfl, rfl⟩ <;>
    cases l <;> cases r <;> simp_all [bothIntegers] <;> rfl

/-- Witness for C8 at the operands `TRUE` and `FALSE`. -/
theorem c8_nonint_equality_is_identity_witness :
    eval_infix_expression "==" TRUE FALSE
      = some (native_boolean_to_boolean_object (pyIs TRUE FALSE))
    ∧ eval_infix_expression "!=" TRUE FALSE
      = some (native_boolean_to_boolean_object (!(pyIs TRUE FALSE)))
    ∧ eval_infix_expression "==" TRUE TRUE = some TRUE
    ∧ eval_infix_expression "==" TRUE FALSE = some FALSE
    ∧ eval_infix_expression "==" (.integer (pyInt 5)) TRUE = some FALSE :=
  c8_nonint_equality_is_identity TRUE FALSE rfl

/-- C9: double bang is a truthiness round-trip — for every runtime value
`x`, `!!x` is the Boolean singleton for `is_truthy x` (exactly `Null`
and the `false` singleton are falsy); `!` on any (truthy, non-boolean)
`Integer`, `ReturnValue`, `Error` or `Function` value is the `FALSE`
singleton; and the programs `!!5` and `!5` evaluate to `TRUE` and
`FALSE`. -/
theorem c9_double_bang_truthiness_roundtrip :
    (∀ x : Value, eval_bang_operator_expression (eval_bang_operator_expression x)
        = native_boolean_to_boolean_object (is_truthy x))
    ∧ (∀ q : PyNum, eval_bang_operator_expression (.integer q) = FALSE)
    ∧ (∀ w : Value, eval_bang_operator_expression (.returnValue w) = FALSE)
    ∧ (∀ m : String, eval_bang_operator_expression (.error m) = FALSE)
    ∧ (∀ (i : Nat) (ps : List String) (b : Node) (e : Nat),
        eval_bang_operator_expression (.function i ps b e) = FALSE)
    ∧ runProgram 16 (.program [.expressionStatement
        (.prefixExpression "!" (.prefixExpression "!" (.integerLiteral 5)))])
      = .ok (.val TRUE)
    ∧ runProgram 16 (.program [.expressionStatement
        (.prefixExpression "!" (.integerLiteral 5))]) = .ok (.val FALSE) := by
  refine ⟨?_, fun _ => rfl, fun _ => rfl, fun _ => rfl, fun _ _ _ _ => rfl, rfl, rfl⟩
  intro x
  cases x <;> try rfl
  rename_i b
  cases b <;> rfl

/-- C10: a call whose callee is not a `Function` is applied without any
guard — `apply_function` reads the callee's `.env`, `.parameters` and
`.body` — so evaluation crashes with a host `AttributeError` instead of
returning an `Error` value: concretely for the programs `5(1)` and
`true()`, and generally for `apply_function` on any `Integer`, `Boolean`
or `Null` callee. -/
theorem c10_calling_non_function_crashes :
    runProgram 16 (.program [.expressionStatement
        (.callExpression (.integerLiteral 5) [.integerLiteral 1])]) = .crash
    ∧ runProgram 16 (.program [.expressionStatement
        (.callExpression (.booleanLiteral true) [])]) = .crash
    ∧ (∀ (fuel : Nat) (q : PyNum) (args : List Value) (envRef : Nat) (st : Store),
        run (fuel + 1) (.applyFn (.integer q) args) envRef st = .crash)
    ∧ (∀ (fuel : Nat) (b : Bool) (args : List Value) (envRef : Nat) (st : Store),
        run (fuel + 1) (.applyFn (.boolean b) args) envRef st = .crash)
    ∧ (∀ (fuel : Nat) (args : List Value) (envRef : Nat) (st : Store),
        run (fuel + 1) (.applyFn .null args) envRef st = .crash) :=
  ⟨rfl, rfl, fun _ _ _ _ _ => rfl, fun _ _ _ _ _ => rfl, fun _ _ _ _ => rfl⟩
